import Mathlib

/-!
Verification of the noise-rs field/kernel library against its specification.

The Rust source under `src/src` is shallowly embedded into Lean. `f64` values
are embedded as exact rationals (`ℚ`): the claims settled here are structural
identities (the same arithmetic expression computed twice), clamp/range facts,
or divergences that do not hinge on IEEE-754 rounding, so exact field
arithmetic is the faithful level of abstraction. Points are tuples of `ℚ`,
`Vec<f64>` buffers are `List ℚ`, and Rust panics become `Option`.

Modules `math.rs`, `gradient.rs`, `permutationtable.rs` and
`fractals/mod.rs` of this repository are not present under `src/`; the
definitions taken from them are modelled from the spec and are marked
`Modelled from the spec:` in their doc comments.
-/

/-- Modelled from the spec: math.rs is absent from src/. Hard clamp of a value
into `[min, max]` ("clamp hard to [-1,1] to absorb floating-point overshoot"). -/
def clampQ (val min max : ℚ) : ℚ :=
  if val < min then min else if val > max then max else val

/-- Modelled from the spec: math.rs is absent from src/. Clamp on grid/octave
counts, used by `RidgedMulti::set_octaves` ("clamps n into the range [1, 32]"). -/
def clampNat (val min max : ℕ) : ℕ :=
  if val < min then min else if val > max then max else val

/-- Modelled from the spec: math.rs is absent from src/. 2D dot product used by
the surflet contributions (`dot(offset, gradient)`). -/
def dot2 (a b : ℚ × ℚ) : ℚ := a.1 * b.1 + a.2 * b.2

/-- Modelled from the spec: math.rs is absent from src/. 3D dot product. -/
def dot3 (a b : ℚ × ℚ × ℚ) : ℚ := a.1 * b.1 + a.2.1 * b.2.1 + a.2.2 * b.2.2

/-- Modelled from the spec: math.rs is absent from src/. 4D dot product. -/
def dot4 (a b : ℚ × ℚ × ℚ × ℚ) : ℚ :=
  a.1 * b.1 + a.2.1 * b.2.1 + a.2.2.1 * b.2.2.1 + a.2.2.2 * b.2.2.2

/-- Modelled from the spec: math/interpolate.rs is absent from src/. The
quintic smoothstep curve `6t^5 - 15t^4 + 10t^3` (spec section 4.2). -/
def s_curve5 (t : ℚ) : ℚ := 6 * t ^ 5 - 15 * t ^ 4 + 10 * t ^ 3

/-- Modelled from the spec: math/interpolate.rs is absent from src/. The cubic
smoothstep `3t^2 - 2t^3` used by `Select`'s falloff blending (spec: "cubic
smoothstep (s_curve3)"). -/
def s_curve3 (t : ℚ) : ℚ := 3 * t ^ 2 - 2 * t ^ 3

/-- Modelled from the spec: math/interpolate.rs is absent from src/. Linear
interpolation between `a` and `b` with parameter `x`. -/
def linear (a b x : ℚ) : ℚ := a + x * (b - a)

/-- Truncation toward zero of a rational, the embedding of Rust's `as isize`
cast (`math::to_isize2`/`to_isize3`). It is applied only to integer-valued
rationals (floors), where it agrees with the floor. -/
def ratTrunc (q : ℚ) : ℤ := if 0 ≤ q then Int.floor q else -Int.floor (-q)

/-- Modelled from the spec: permutationtable.rs is absent from src/. A
`PermutationTable` owns a deterministic permutation of {0..255} derived from
the seed and hashes integer lattice coordinates by folding each coordinate
through the table (`index = table[(index + coord) & 0xFF]`); the table is
embedded as its lookup function on masked indices. -/
structure PermutationTable where
  table : ℕ → ℕ

/-- Modelled from the spec: the seeded deterministic shuffle of {0..255}. Any
fixed deterministic permutation satisfies the spec's stated invariants; we use
the affine bijection `i ↦ (173*i + 89*seed + 91) mod 256` (173 is odd, hence
invertible mod 256). -/
def PermutationTable.new (seed : ℕ) : PermutationTable :=
  ⟨fun i => (173 * (i % 256) + 89 * seed + 91) % 256⟩

/-- One folding step of the hash: `table[(index + coord) & 0xFF]`. -/
def PermutationTable.fold (pt : PermutationTable) (index : ℕ) (coord : ℤ) : ℕ :=
  pt.table ((((index : ℤ) + coord) % 256).toNat)

/-- Modelled from the spec: hash of 2D integer lattice coordinates. -/
def PermutationTable.get2 (pt : PermutationTable) (c : ℤ × ℤ) : ℕ :=
  pt.fold (pt.fold 0 c.1) c.2

/-- Modelled from the spec: hash of 3D integer lattice coordinates. -/
def PermutationTable.get3 (pt : PermutationTable) (c : ℤ × ℤ × ℤ) : ℕ :=
  pt.fold (pt.fold (pt.fold 0 c.1) c.2.1) c.2.2

/-- Modelled from the spec: hash of 4D integer lattice coordinates. -/
def PermutationTable.get4 (pt : PermutationTable) (c : ℤ × ℤ × ℤ × ℤ) : ℕ :=
  pt.fold (pt.fold (pt.fold (pt.fold 0 c.1) c.2.1) c.2.2.1) c.2.2.2

/-- Modelled from the spec: gradient.rs is absent from src/. Fixed table of
unit-ish 2D gradient vectors indexed by the low bits of the permutation hash. -/
def gradient_get2 (index : ℕ) : ℚ × ℚ :=
  if index % 8 = 0 then (1, 0)
  else if index % 8 = 1 then (-1, 0)
  else if index % 8 = 2 then (0, 1)
  else if index % 8 = 3 then (0, -1)
  else if index % 8 = 4 then (1, 1)
  else if index % 8 = 5 then (-1, 1)
  else if index % 8 = 6 then (1, -1)
  else (-1, -1)

/-- Modelled from the spec: gradient.rs is absent from src/. Fixed table of
unit-ish 3D gradient vectors (the 12 cube-edge directions). -/
def gradient_get3 (index : ℕ) : ℚ × ℚ × ℚ :=
  if index % 12 = 0 then (1, 1, 0)
  else if index % 12 = 1 then (-1, 1, 0)
  else if index % 12 = 2 then (1, -1, 0)
  else if index % 12 = 3 then (-1, -1, 0)
  else if index % 12 = 4 then (1, 0, 1)
  else if index % 12 = 5 then (-1, 0, 1)
  else if index % 12 = 6 then (1, 0, -1)
  else if index % 12 = 7 then (-1, 0, -1)
  else if index % 12 = 8 then (0, 1, 1)
  else if index % 12 = 9 then (0, -1, 1)
  else if index % 12 = 10 then (0, 1, -1)
  else (0, -1, -1)

/-- Modelled from the spec: gradient.rs is absent from src/. Fixed table of
unit-ish 4D gradient vectors indexed by the low bits of the permutation hash. -/
def gradient_get4 (index : ℕ) : ℚ × ℚ × ℚ × ℚ :=
  if index % 8 = 0 then (1, 1, 1, 0)
  else if index % 8 = 1 then (-1, 1, 1, 0)
  else if index % 8 = 2 then (1, -1, 1, 0)
  else if index % 8 = 3 then (1, 1, -1, 0)
  else if index % 8 = 4 then (0, 1, 1, 1)
  else if index % 8 = 5 then (0, -1, 1, 1)
  else if index % 8 = 6 then (0, 1, -1, 1)
  else (0, 1, 1, -1)

/-- `noisefield.rs` line 3: `const MAX_GRID_SIZE: u16 = 32_767`. -/
def MAX_GRID_SIZE : ℕ := 32767

/-- `noisefield.rs` lines 50-59: a 2D field owns its grid size and the two
parallel buffers `coordinates` and `values`. -/
structure NoiseField2D where
  width : ℕ
  height : ℕ
  coordinates : List (ℚ × ℚ)
  values : List ℚ
deriving DecidableEq

/-- `NoiseField2D::new` (noisefield.rs lines 63-94): asserts each dimension is
positive and below `MAX_GRID_SIZE`, then allocates both buffers zeroed; the
four `assert!` calls are embedded as the `Option` guard. -/
def NoiseField2D.new (grid_width grid_height : ℕ) : Option NoiseField2D :=
  if 0 < grid_width ∧ 0 < grid_height ∧
      grid_width < MAX_GRID_SIZE ∧ grid_height < MAX_GRID_SIZE then
    some { width := grid_width
           height := grid_height
           coordinates := List.replicate (grid_width * grid_height) (0, 0)
           values := List.replicate (grid_width * grid_height) 0 }
  else
    none

/-- `NoiseField2D::scale_coordinates` (noisefield.rs lines 116-125): clones the
field and multiplies every coordinate component by `scale`. -/
def NoiseField2D.scale_coordinates (f : NoiseField2D) (scale : ℚ) : NoiseField2D :=
  { f with coordinates := f.coordinates.map fun c => (c.1 * scale, c.2 * scale) }

/-- `NoiseField2D::build_field` (noisefield.rs lines 137-153): fills the
coordinates row-major (y outer, x inner, slot `x + width*y`) with
`bounds.0 + step * i` where `step = extent / size`. -/
def NoiseField2D.build_field (f : NoiseField2D) (x_bounds y_bounds : ℚ × ℚ) :
    NoiseField2D :=
  let x_extent := x_bounds.2 - x_bounds.1
  let y_extent := y_bounds.2 - y_bounds.1
  let x_step := x_extent / (f.width : ℚ)
  let y_step := y_extent / (f.height : ℚ)
  { f with coordinates :=
      (List.range f.height).flatMap fun y =>
        (List.range f.width).map fun x =>
          (x_bounds.1 + x_step * (x : ℚ), y_bounds.1 + y_step * (y : ℚ)) }

/-- `noisefield.rs` lines 191-200: the 3D field. -/
structure NoiseField3D where
  width : ℕ
  height : ℕ
  depth : ℕ
  coordinates : List (ℚ × ℚ × ℚ)
  values : List ℚ
deriving DecidableEq

/-- `NoiseField3D::new` (noisefield.rs lines 204-236). -/
def NoiseField3D.new (width height depth : ℕ) : Option NoiseField3D :=
  if 0 < width ∧ 0 < height ∧ 0 < depth ∧
      width < MAX_GRID_SIZE ∧ height < MAX_GRID_SIZE ∧ depth < MAX_GRID_SIZE then
    some { width := width
           height := height
           depth := depth
           coordinates := List.replicate (width * height * depth) (0, 0, 0)
           values := List.replicate (width * height * depth) 0 }
  else
    none

/-- `NoiseField3D::scale_coordinates` (noisefield.rs lines 258-267). -/
def NoiseField3D.scale_coordinates (f : NoiseField3D) (scale : ℚ) : NoiseField3D :=
  { f with coordinates :=
      f.coordinates.map fun c => (c.1 * scale, c.2.1 * scale, c.2.2 * scale) }

/-- `NoiseField3D::build_field` (noisefield.rs lines 279-306). Note line 287 of
the source computes `z_extent = y_bounds.1 - y_bounds.0` and line 291 computes
`z_step = y_extent / depth`: the z axis step is derived from the y bounds, and
the z bounds contribute only the offset `z_bounds.0`. The embedding reproduces
this faithfully. -/
def NoiseField3D.build_field (f : NoiseField3D)
    (x_bounds y_bounds z_bounds : ℚ × ℚ) : NoiseField3D :=
  let x_extent := x_bounds.2 - x_bounds.1
  let y_extent := y_bounds.2 - y_bounds.1
  let x_step := x_extent / (f.width : ℚ)
  let y_step := y_extent / (f.height : ℚ)
  let z_step := y_extent / (f.depth : ℚ)
  { f with coordinates :=
      (List.range f.depth).flatMap fun z =>
        (List.range f.height).flatMap fun y =>
          (List.range f.width).map fun x =>
            (x_bounds.1 + x_step * (x : ℚ),
             y_bounds.1 + y_step * (y : ℚ),
             z_bounds.1 + z_step * (z : ℚ)) }

/-- `NoiseField3D::index` (noisefield.rs lines 308-320): row-major flat index
`x + y*width + z*width*height`. -/
def NoiseField3D.index (f : NoiseField3D) (grid_point : ℕ × ℕ × ℕ) : ℕ :=
  grid_point.1 + grid_point.2.1 * f.width + grid_point.2.2 * f.width * f.height

/-- `NoiseField3D::coord_at_point` (noisefield.rs lines 246-250); the Rust
out-of-bounds panic is embedded as a default, never reached in our uses. -/
def NoiseField3D.coord_at_point (f : NoiseField3D) (grid_point : ℕ × ℕ × ℕ) :
    ℚ × ℚ × ℚ :=
  f.coordinates.getD (f.index grid_point) (0, 0, 0)

lemma clampQ_mem (x lo hi : ℚ) (h : lo ≤ hi) :
    lo ≤ clampQ x lo hi ∧ clampQ x lo hi ≤ hi := by
  unfold clampQ
  split_ifs with h1 h2
  · exact ⟨le_refl _, h⟩
  · exact ⟨h, le_refl _⟩
  · exact ⟨le_of_not_lt h1, le_of_not_lt h2⟩

/-- **C7.** `NoiseField2D::new(w, h)` and `NoiseField3D::new(w, h, d)` fail
exactly when some dimension is 0 or at least 32767 (the asserts in
noisefield.rs lines 68-71 and 207-212), and otherwise succeed with the given
(never clamped) dimensions and zero-initialized coordinate and value buffers of
length equal to the product of the dimensions. -/
theorem noisefield_new_checks_dimensions (w h d : ℕ) :
    ((NoiseField2D.new w h).isSome ↔
      ¬(w = 0 ∨ h = 0 ∨ MAX_GRID_SIZE ≤ w ∨ MAX_GRID_SIZE ≤ h)) ∧
    (∀ f, NoiseField2D.new w h = some f →
      f.width = w ∧ f.height = h ∧
      f.coordinates = List.replicate (w * h) (0, 0) ∧
      f.values = List.replicate (w * h) 0) ∧
    ((NoiseField3D.new w h d).isSome ↔
      ¬(w = 0 ∨ h = 0 ∨ d = 0 ∨
        MAX_GRID_SIZE ≤ w ∨ MAX_GRID_SIZE ≤ h ∨ MAX_GRID_SIZE ≤ d)) ∧
    (∀ f, NoiseField3D.new w h d = some f →
      f.width = w ∧ f.height = h ∧ f.depth = d ∧
      f.coordinates = List.replicate (w * h * d) (0, 0, 0) ∧
      f.values = List.replicate (w * h * d) 0) := by
  refine ⟨?_, ?_, ?_, ?_⟩
  · unfold NoiseField2D.new
    split_ifs with hc
    · exact iff_of_true rfl (by omega)
    · exact iff_of_false (by simp) (by omega)
  · intro f hf
    unfold NoiseField2D.new at hf
    split_ifs at hf
    injection hf with hf
    subst hf
    exact ⟨rfl, rfl, rfl, rfl⟩
  · unfold NoiseField3D.new
    split_ifs with hc
    · exact iff_of_true rfl (by omega)
    · exact iff_of_false (by simp) (by omega)
  · intro f hf
    unfold NoiseField3D.new at hf
    split_ifs at hf
    injection hf with hf
    subst hf
    exact ⟨rfl, rfl, rfl, rfl, rfl⟩

/-- Witness for C7: `Field::new(5,5)` succeeds with 25 zeroed pairs, while
`Field::new(0,5)` fails; instantiates the theorem at concrete dimensions. -/
theorem noisefield_new_checks_dimensions_witness :
    (NoiseField2D.new 5 5).isSome ∧
    (∃ f, NoiseField2D.new 5 5 = some f ∧ f.values = List.replicate 25 0) ∧
    ¬(NoiseField2D.new 0 5).isSome := by
  refine ⟨?_, ?_, ?_⟩
  · exact (noisefield_new_checks_dimensions 5 5 1).1.mpr (by decide)
  · refine ⟨⟨5, 5, List.replicate 25 (0, 0), List.replicate 25 0⟩, rfl, ?_⟩
    exact ((noisefield_new_checks_dimensions 5 5 1).2.1 _ rfl).2.2.2
  · intro hsome
    have := (noisefield_new_checks_dimensions 0 5 1).1.mp hsome
    exact this (Or.inl rfl)

/-- **C9.** `scale_coordinates(factor)` (noisefield.rs lines 116-125 and
258-267) returns a field with the same values buffer and grid dimensions,
whose coordinates are the input's with every component multiplied by the
factor; the input itself is untouched (the Rust method takes `&self` and
returns a fresh clone, embedded here as a pure function). -/
theorem scale_coordinates_only_rescales_coordinates
    (f2 : NoiseField2D) (f3 : NoiseField3D) (s : ℚ) :
    (f2.scale_coordinates s).values = f2.values ∧
    (f2.scale_coordinates s).width = f2.width ∧
    (f2.scale_coordinates s).height = f2.height ∧
    (f2.scale_coordinates s).coordinates =
      f2.coordinates.map (fun c => (c.1 * s, c.2 * s)) ∧
    (f3.scale_coordinates s).values = f3.values ∧
    (f3.scale_coordinates s).width = f3.width ∧
    (f3.scale_coordinates s).height = f3.height ∧
    (f3.scale_coordinates s).depth = f3.depth ∧
    (f3.scale_coordinates s).coordinates =
      f3.coordinates.map (fun c => (c.1 * s, c.2.1 * s, c.2.2 * s)) :=
  ⟨rfl, rfl, rfl, rfl, rfl, rfl, rfl, rfl, rfl⟩

/-- **C3 (failing input).** The claim says every axis of the 3D field follows
`lo + i*(hi-lo)/n`. On the field built by `NoiseField3D::new(1, 1, 2)` with
bounds x = (0,0), y = (0,2), z = (0,10), the coordinate at grid point
(0,0,1) has z-component `1` (the code's z step is the y-extent 2 divided by
the depth 2, noisefield.rs lines 287 and 291), whereas the claimed formula
gives `0 + 1*(10-0)/2 = 5`. -/
theorem build_field_3d_z_step_uses_y_extent :
    (NoiseField3D.new 1 1 2).map
      (fun f => (f.build_field (0, 0) (0, 2) (0, 10)).coord_at_point (0, 0, 1)) =
      some (0, 0, 1) ∧
    (0 : ℚ) + 1 * (10 - 0) / 2 = 5 ∧ (1 : ℚ) ≠ 5 := by
  refine ⟨?_, by norm_num, by norm_num⟩
  have hnew : NoiseField3D.new 1 1 2 =
      some ⟨1, 1, 2, List.replicate 2 (0, 0, 0), List.replicate 2 0⟩ := rfl
  rw [hnew, Option.map_some']
  simp only [NoiseField3D.build_field, NoiseField3D.coord_at_point,
    NoiseField3D.index, List.range_succ, List.range_zero]
  norm_num [List.flatMap, List.getD]

/-- The f64 value of `(2.0_f64).sqrt()`, the scale factor of `perlin_2d`
(perlin.rs line 125): `6369051672525773 * 2^-52`. -/
def SQRT2_F64 : ℚ := 6369051672525773 / 4503599627370496

/-- `perlin_2d_surflet`'s `SCALE_FACTOR` literal `3.160_493_827_160_493_7`
(perlin.rs line 30), embedded as the written decimal. -/
def PERLIN_SCALE_FACTOR_2D : ℚ := 31604938271604937 / 10000000000000000

/-- `perlin_3d`'s `SCALE_FACTOR` literal `3.889_855_325_553_107_4`
(perlin.rs line 294), embedded as the written decimal. -/
def PERLIN_SCALE_FACTOR_3D : ℚ := 38898553255531074 / 10000000000000000

/-- `perlin_4d`'s `SCALE_FACTOR` literal `4.424_369_240_215_691`
(perlin.rs line 362), embedded as the written decimal. -/
def PERLIN_SCALE_FACTOR_4D : ℚ := 4424369240215691 / 1000000000000000

/-- perlin.rs lines 13-17: the Perlin kernel owns its seed and permutation
table. -/
structure Perlin where
  seed : ℕ
  perm_table : PermutationTable

/-- `Perlin::new` (perlin.rs lines 22-27) with `DEFAULT_SEED = 0`. -/
def Perlin.new : Perlin := ⟨0, PermutationTable.new 0⟩

/-- The inner `surflet` of `perlin_2d_surflet` (perlin.rs lines 33-40). -/
def surflet2 (perm_table : PermutationTable) (corner : ℤ × ℤ)
    (distance : ℚ × ℚ) : ℚ :=
  let attn := 1 - dot2 distance distance
  if attn > 0 then
    attn ^ 4 * dot2 distance (gradient_get2 (perm_table.get2 corner))
  else 0

/-- `Perlin::perlin_2d_surflet` (perlin.rs lines 29-71); this is the function
behind `NoiseFn<[f64; 2]>::get` (lines 648-652). -/
def Perlin.perlin_2d_surflet (p : Perlin) (point : ℚ × ℚ) : ℚ :=
  let floored := ((Int.floor point.1 : ℚ), (Int.floor point.2 : ℚ))
  let near_corner := (ratTrunc floored.1, ratTrunc floored.2)
  let far_corner := (near_corner.1 + 1, near_corner.2 + 1)
  let near_distance := (point.1 - floored.1, point.2 - floored.2)
  let far_distance := (near_distance.1 - 1, near_distance.2 - 1)
  let f00 := surflet2 p.perm_table (near_corner.1, near_corner.2)
    (near_distance.1, near_distance.2)
  let f10 := surflet2 p.perm_table (far_corner.1, near_corner.2)
    (far_distance.1, near_distance.2)
  let f01 := surflet2 p.perm_table (near_corner.1, far_corner.2)
    (near_distance.1, far_distance.2)
  let f11 := surflet2 p.perm_table (far_corner.1, far_corner.2)
    (far_distance.1, far_distance.2)
  clampQ ((f00 + f10 + f01 + f11) * PERLIN_SCALE_FACTOR_2D) (-1) 1

/-- The inner `gradient_dot_v` of `perlin_2d` and its parallel variants
(perlin.rs lines 75-86): dot of the point with the gradient selected by the
low two bits of the hash (`perm & 0b11`). -/
def gradient_dot_v (perm : ℕ) (point : ℚ × ℚ) : ℚ :=
  if perm % 4 = 0 then point.1 + point.2
  else if perm % 4 = 1 then -point.1 + point.2
  else if perm % 4 = 2 then point.1 - point.2
  else -point.1 - point.2

/-- `Perlin::perlin_2d` (perlin.rs lines 73-133): the linear-interpolation
form of 2D Perlin noise used by the field pipeline. -/
def Perlin.perlin_2d (p : Perlin) (point : ℚ × ℚ) : ℚ :=
  let floored := ((Int.floor point.1 : ℚ), (Int.floor point.2 : ℚ))
  let near_corner := (ratTrunc floored.1, ratTrunc floored.2)
  let far_corner := (near_corner.1 + 1, near_corner.2 + 1)
  let near_distance := (point.1 - floored.1, point.2 - floored.2)
  let far_distance := (near_distance.1 - 1, near_distance.2 - 1)
  let u := s_curve5 near_distance.1
  let v := s_curve5 near_distance.2
  let g00 := gradient_dot_v (p.perm_table.get2 (near_corner.1, near_corner.2))
    near_distance
  let g10 := gradient_dot_v (p.perm_table.get2 (far_corner.1, near_corner.2))
    (far_distance.1, near_distance.2)
  let g01 := gradient_dot_v (p.perm_table.get2 (near_corner.1, far_corner.2))
    (near_distance.1, far_distance.2)
  let g11 := gradient_dot_v (p.perm_table.get2 (far_corner.1, far_corner.2))
    far_distance
  let k0 := g00
  let k1 := g10 - g00
  let k2 := g01 - g00
  let k3 := g00 + g11 - g10 - g01
  let unscaled_result := k0 + k1 * u + k2 * v + k3 * u * v
  let scaled_result := unscaled_result * SQRT2_F64
  clampQ scaled_result (-1) 1

/-- `Perlin::perlin_2d_parallel` (perlin.rs lines 135-194): zips the separate
x and y slices and computes, per pair, the same expression as `perlin_2d`. -/
def Perlin.perlin_2d_parallel (p : Perlin) (x y : List ℚ) : List ℚ :=
  (x.zip y).map fun q =>
    let floored := ((Int.floor q.1 : ℚ), (Int.floor q.2 : ℚ))
    let near_corner := (ratTrunc floored.1, ratTrunc floored.2)
    let far_corner := (near_corner.1 + 1, near_corner.2 + 1)
    let near_distance := (q.1 - floored.1, q.2 - floored.2)
    let far_distance := (near_distance.1 - 1, near_distance.2 - 1)
    let u := s_curve5 near_distance.1
    let v := s_curve5 near_distance.2
    let g00 := gradient_dot_v (p.perm_table.get2 (near_corner.1, near_corner.2))
      near_distance
    let g10 := gradient_dot_v (p.perm_table.get2 (far_corner.1, near_corner.2))
      (far_distance.1, near_distance.2)
    let g01 := gradient_dot_v (p.perm_table.get2 (near_corner.1, far_corner.2))
      (near_distance.1, far_distance.2)
    let g11 := gradient_dot_v (p.perm_table.get2 (far_corner.1, far_corner.2))
      far_distance
    let k0 := g00
    let k1 := g10 - g00
    let k2 := g01 - g00
    let k3 := g00 + g11 - g10 - g01
    let unscaled_result := k0 + k1 * u + k2 * v + k3 * u * v
    let scaled_result := unscaled_result * SQRT2_F64
    clampQ scaled_result (-1) 1

/-- `Perlin::inner_process_2d_field_serial` (perlin.rs lines 265-270). -/
def Perlin.inner_process_2d_field_serial (p : Perlin)
    (coordinates : List (ℚ × ℚ)) : List ℚ :=
  coordinates.map fun point => p.perlin_2d point

/-- `Perlin::process_2d_field_serial` (perlin.rs lines 257-263): clone the
field and replace its values. -/
def Perlin.process_2d_field_serial (p : Perlin) (field : NoiseField2D) :
    NoiseField2D :=
  { field with values := p.inner_process_2d_field_serial field.coordinates }

/-- `Perlin::inner_process_2d_field_parallel_2` (perlin.rs lines 280-284):
splits the coordinates into x and y slices and calls `perlin_2d_parallel`. -/
def Perlin.inner_process_2d_field_parallel_2 (p : Perlin)
    (coordinates : List (ℚ × ℚ)) : List ℚ :=
  p.perlin_2d_parallel (coordinates.map fun point => point.1)
    (coordinates.map fun point => point.2)

/-- `Perlin::process_2d_field_parallel` (perlin.rs lines 272-278). -/
def Perlin.process_2d_field_parallel (p : Perlin) (field : NoiseField2D) :
    NoiseField2D :=
  { field with values := p.inner_process_2d_field_parallel_2 field.coordinates }

/-- The inner `surflet` of `perlin_3d` (perlin.rs lines 297-304). -/
def surflet3 (perm_table : PermutationTable) (corner : ℤ × ℤ × ℤ)
    (distance : ℚ × ℚ × ℚ) : ℚ :=
  let attn := 1 - dot3 distance distance
  if attn > 0 then
    attn ^ 4 * dot3 distance (gradient_get3 (perm_table.get3 corner))
  else 0

/-- The fractional offsets of `perlin_3d` (perlin.rs lines 306, 309):
`near_distance = point - point.map(floor)`. -/
def perlin_3d_near_distance (point : ℚ × ℚ × ℚ) : ℚ × ℚ × ℚ :=
  (point.1 - (Int.floor point.1 : ℚ),
   point.2.1 - (Int.floor point.2.1 : ℚ),
   point.2.2 - (Int.floor point.2.2 : ℚ))

/-- The distance vector the source passes to the near-corner (f000) surflet of
`perlin_3d` (perlin.rs line 315): `[near_distance.x, near_distance.y,
near_distance.x]` — the z slot receives the x component. -/
def perlin_3d_f000_distance (point : ℚ × ℚ × ℚ) : ℚ × ℚ × ℚ :=
  let nd := perlin_3d_near_distance point
  (nd.1, nd.2.1, nd.1)

/-- `Perlin::perlin_3d` (perlin.rs lines 293-359); this is also
`NoiseFn<[f64; 3]>::get` (lines 655-659). -/
def Perlin.perlin_3d (p : Perlin) (point : ℚ × ℚ × ℚ) : ℚ :=
  let floored := ((Int.floor point.1 : ℚ), (Int.floor point.2.1 : ℚ),
    (Int.floor point.2.2 : ℚ))
  let near_corner := (ratTrunc floored.1, ratTrunc floored.2.1,
    ratTrunc floored.2.2)
  let far_corner := (near_corner.1 + 1, near_corner.2.1 + 1, near_corner.2.2 + 1)
  let near_distance := perlin_3d_near_distance point
  let far_distance := (near_distance.1 - 1, near_distance.2.1 - 1,
    near_distance.2.2 - 1)
  let f000 := surflet3 p.perm_table
    (near_corner.1, near_corner.2.1, near_corner.2.2)
    (perlin_3d_f000_distance point)
  let f100 := surflet3 p.perm_table
    (far_corner.1, near_corner.2.1, near_corner.2.2)
    (far_distance.1, near_distance.2.1, near_distance.2.2)
  let f010 := surflet3 p.perm_table
    (near_corner.1, far_corner.2.1, near_corner.2.2)
    (near_distance.1, far_distance.2.1, near_distance.2.2)
  let f110 := surflet3 p.perm_table
    (far_corner.1, far_corner.2.1, near_corner.2.2)
    (far_distance.1, far_distance.2.1, near_distance.2.2)
  let f001 := surflet3 p.perm_table
    (near_corner.1, near_corner.2.1, far_corner.2.2)
    (near_distance.1, near_distance.2.1, far_distance.2.2)
  let f101 := surflet3 p.perm_table
    (far_corner.1, near_corner.2.1, far_corner.2.2)
    (far_distance.1, near_distance.2.1, far_distance.2.2)
  let f011 := surflet3 p.perm_table
    (near_corner.1, far_corner.2.1, far_corner.2.2)
    (near_distance.1, far_distance.2.1, far_distance.2.2)
  let f111 := surflet3 p.perm_table
    (far_corner.1, far_corner.2.1, far_corner.2.2)
    (far_distance.1, far_distance.2.1, far_distance.2.2)
  clampQ ((f000 + f100 + f010 + f110 + f001 + f101 + f011 + f111) *
    PERLIN_SCALE_FACTOR_3D) (-1) 1

/-- The inner `surflet` of `perlin_4d` (perlin.rs lines 365-372). -/
def surflet4 (perm_table : PermutationTable) (corner : ℤ × ℤ × ℤ × ℤ)
    (distance : ℚ × ℚ × ℚ × ℚ) : ℚ :=
  let attn := 1 - dot4 distance distance
  if attn > 0 then
    attn ^ 4 * dot4 distance (gradient_get4 (perm_table.get4 corner))
  else 0

/-- `Perlin::perlin_4d` (perlin.rs lines 361-588); this is also
`NoiseFn<[f64; 4]>::get` (lines 662-666). -/
def Perlin.perlin_4d (p : Perlin) (point : ℚ × ℚ × ℚ × ℚ) : ℚ :=
  let floored := ((Int.floor point.1 : ℚ), (Int.floor point.2.1 : ℚ),
    (Int.floor point.2.2.1 : ℚ), (Int.floor point.2.2.2 : ℚ))
  let nc := (ratTrunc floored.1, ratTrunc floored.2.1, ratTrunc floored.2.2.1,
    ratTrunc floored.2.2.2)
  let fc := (nc.1 + 1, nc.2.1 + 1, nc.2.2.1 + 1, nc.2.2.2 + 1)
  let nd := (point.1 - floored.1, point.2.1 - floored.2.1,
    point.2.2.1 - floored.2.2.1, point.2.2.2 - floored.2.2.2)
  let fd := (nd.1 - 1, nd.2.1 - 1, nd.2.2.1 - 1, nd.2.2.2 - 1)
  let f0000 := surflet4 p.perm_table (nc.1, nc.2.1, nc.2.2.1, nc.2.2.2)
    (nd.1, nd.2.1, nd.2.2.1, nd.2.2.2)
  let f1000 := surflet4 p.perm_table (fc.1, nc.2.1, nc.2.2.1, nc.2.2.2)
    (fd.1, nd.2.1, nd.2.2.1, nd.2.2.2)
  let f0100 := surflet4 p.perm_table (nc.1, fc.2.1, nc.2.2.1, nc.2.2.2)
    (nd.1, fd.2.1, nd.2.2.1, nd.2.2.2)
  let f1100 := surflet4 p.perm_table (fc.1, fc.2.1, nc.2.2.1, nc.2.2.2)
    (fd.1, fd.2.1, nd.2.2.1, nd.2.2.2)
  let f0010 := surflet4 p.perm_table (nc.1, nc.2.1, fc.2.2.1, nc.2.2.2)
    (nd.1, nd.2.1, fd.2.2.1, nd.2.2.2)
  let f1010 := surflet4 p.perm_table (fc.1, nc.2.1, fc.2.2.1, nc.2.2.2)
    (fd.1, nd.2.1, fd.2.2.1, nd.2.2.2)
  let f0110 := surflet4 p.perm_table (nc.1, fc.2.1, fc.2.2.1, nc.2.2.2)
    (nd.1, fd.2.1, fd.2.2.1, nd.2.2.2)
  let f1110 := surflet4 p.perm_table (fc.1, fc.2.1, fc.2.2.1, nc.2.2.2)
    (fd.1, fd.2.1, fd.2.2.1, nd.2.2.2)
  let f0001 := surflet4 p.perm_table (nc.1, nc.2.1, nc.2.2.1, fc.2.2.2)
    (nd.1, nd.2.1, nd.2.2.1, fd.2.2.2)
  let f1001 := surflet4 p.perm_table (fc.1, nc.2.1, nc.2.2.1, fc.2.2.2)
    (fd.1, nd.2.1, nd.2.2.1, fd.2.2.2)
  let f0101 := surflet4 p.perm_table (nc.1, fc.2.1, nc.2.2.1, fc.2.2.2)
    (nd.1, fd.2.1, nd.2.2.1, fd.2.2.2)
  let f1101 := surflet4 p.perm_table (fc.1, fc.2.1, nc.2.2.1, fc.2.2.2)
    (fd.1, fd.2.1, nd.2.2.1, fd.2.2.2)
  let f0011 := surflet4 p.perm_table (nc.1, nc.2.1, fc.2.2.1, fc.2.2.2)
    (nd.1, nd.2.1, fd.2.2.1, fd.2.2.2)
  let f1011 := surflet4 p.perm_table (fc.1, nc.2.1, fc.2.2.1, fc.2.2.2)
    (fd.1, nd.2.1, fd.2.2.1, fd.2.2.2)
  let f0111 := surflet4 p.perm_table (nc.1, fc.2.1, fc.2.2.1, fc.2.2.2)
    (nd.1, fd.2.1, fd.2.2.1, fd.2.2.2)
  let f1111 := surflet4 p.perm_table (fc.1, fc.2.1, fc.2.2.1, fc.2.2.2)
    (fd.1, fd.2.1, fd.2.2.1, fd.2.2.2)
  clampQ ((f0000 + f1000 + f0100 + f1100 + f0010 + f1010 + f0110 + f1110 +
    f0001 + f1001 + f0101 + f1101 + f0011 + f1011 + f0111 + f1111) *
    PERLIN_SCALE_FACTOR_4D) (-1) 1

/-- `Perlin::inner_process_3d_field_serial` (perlin.rs lines 598-603). -/
def Perlin.inner_process_3d_field_serial (p : Perlin)
    (coordinates : List (ℚ × ℚ × ℚ)) : List ℚ :=
  coordinates.map fun point => p.perlin_3d point

/-- `Perlin::process_3d_field_serial` (perlin.rs lines 590-596). -/
def Perlin.process_3d_field_serial (p : Perlin) (field : NoiseField3D) :
    NoiseField3D :=
  { field with values := p.inner_process_3d_field_serial field.coordinates }

/-- `Perlin::inner_process_3d_field_parallel` (perlin.rs lines 613-618):
rayon's `par_iter().map().collect()` is an index-order-preserving map, so the
embedding is a `List.map` over the same coordinates. -/
def Perlin.inner_process_3d_field_parallel (p : Perlin)
    (coordinates : List (ℚ × ℚ × ℚ)) : List ℚ :=
  coordinates.map fun point => p.perlin_3d point

/-- `Perlin::process_3d_field_parallel` (perlin.rs lines 605-611). -/
def Perlin.process_3d_field_parallel (p : Perlin) (field : NoiseField3D) :
    NoiseField3D :=
  { field with values := p.inner_process_3d_field_parallel field.coordinates }

/-- `NoiseFn<[f64; 2]> for Perlin` (perlin.rs lines 648-652): point
evaluation delegates to `perlin_2d_surflet`. -/
def Perlin.get2 (p : Perlin) (point : ℚ × ℚ) : ℚ := p.perlin_2d_surflet point

/-- `NoiseFn<[f64; 3]> for Perlin` (perlin.rs lines 655-659). -/
def Perlin.get3 (p : Perlin) (point : ℚ × ℚ × ℚ) : ℚ := p.perlin_3d point

/-- `NoiseFn<[f64; 4]> for Perlin` (perlin.rs lines 662-666). -/
def Perlin.get4 (p : Perlin) (point : ℚ × ℚ × ℚ × ℚ) : ℚ := p.perlin_4d point

/-- `NoiseFieldFn<NoiseField2D> for Perlin` (perlin.rs lines 668-672):
`process_field` is the parallel 2D pipeline. -/
def Perlin.process_field2 (p : Perlin) (field : NoiseField2D) : NoiseField2D :=
  p.process_2d_field_parallel field

/-- `NoiseFieldFn<NoiseField3D> for Perlin` (perlin.rs lines 674-678). -/
def Perlin.process_field3 (p : Perlin) (field : NoiseField3D) : NoiseField3D :=
  p.process_3d_field_parallel field

lemma perlin_2d_parallel_on_split_coordinates (p : Perlin)
    (coordinates : List (ℚ × ℚ)) :
    p.perlin_2d_parallel (coordinates.map fun point => point.1)
      (coordinates.map fun point => point.2) =
      coordinates.map fun point => p.perlin_2d point := by
  unfold Perlin.perlin_2d_parallel
  rw [List.zip_map', List.map_map]
  rfl

/-- **C4.** Serial and parallel field evaluation agree element-wise: for every
Perlin kernel and every field, `process_2d_field_serial` and
`process_2d_field_parallel` produce the same values buffer (the parallel path
splits coordinates into x/y slices, zips them back and applies the same
per-point expression), and likewise `process_3d_field_serial` and
`process_3d_field_parallel` (both map `perlin_3d`; rayon's indexed parallel
map is embedded as an order-preserving map). -/
theorem serial_parallel_field_evaluation_agree (p : Perlin)
    (f2 : NoiseField2D) (f3 : NoiseField3D) :
    (p.process_2d_field_serial f2).values = (p.process_2d_field_parallel f2).values ∧
    (p.process_3d_field_serial f3).values = (p.process_3d_field_parallel f3).values := by
  refine ⟨?_, rfl⟩
  show p.inner_process_2d_field_serial f2.coordinates =
    p.inner_process_2d_field_parallel_2 f2.coordinates
  unfold Perlin.inner_process_2d_field_serial Perlin.inner_process_2d_field_parallel_2
  exact (perlin_2d_parallel_on_split_coordinates p f2.coordinates).symm

/-- **C1 (amended).** For every Perlin kernel, `process_field` returns a field
with the same grid shape and identical coordinates, and with `values[i]` equal
to the pipeline's per-point kernel evaluation of `coordinates[i]`: `perlin_2d`
(the lerp form) for the 2D field, and `perlin_3d` — which is exactly `get` —
for the 3D field. (For the 2D field the per-point function is not the
surflet-based `get`; see the counterexample.) -/
theorem process_field_matches_pipeline_kernel (p : Perlin)
    (f2 : NoiseField2D) (f3 : NoiseField3D) :
    (p.process_field2 f2).width = f2.width ∧
    (p.process_field2 f2).height = f2.height ∧
    (p.process_field2 f2).coordinates = f2.coordinates ∧
    (p.process_field2 f2).values = (f2.coordinates.map fun point => p.perlin_2d point) ∧
    (p.process_field3 f3).width = f3.width ∧
    (p.process_field3 f3).height = f3.height ∧
    (p.process_field3 f3).depth = f3.depth ∧
    (p.process_field3 f3).coordinates = f3.coordinates ∧
    (p.process_field3 f3).values = (f3.coordinates.map fun point => p.get3 point) := by
  refine ⟨rfl, rfl, rfl, ?_, rfl, rfl, rfl, rfl, rfl⟩
  exact perlin_2d_parallel_on_split_coordinates p f2.coordinates

/-- **C1 (counterexample).** On a 1×1 field holding the point (1/2, 1/2), the
default Perlin kernel's `process_field` value buffer differs from the
pointwise `get` (= `perlin_2d_surflet`) evaluation: the pipeline computes the
lerp-form `perlin_2d`, whose value at this point is `-sqrt2/4 ≈ -0.3536`,
while `get` yields `≈ -0.0988`. -/
theorem process_field_2d_values_differ_from_get :
    (Perlin.new.process_field2 ⟨1, 1, [((1:ℚ)/2, (1:ℚ)/2)], [0]⟩).values ≠
      [Perlin.new.get2 ((1:ℚ)/2, (1:ℚ)/2)] := by
  have hL : (Perlin.new.process_field2 ⟨1, 1, [((1:ℚ)/2, (1:ℚ)/2)], [0]⟩).values =
      [Perlin.new.perlin_2d ((1:ℚ)/2, (1:ℚ)/2)] := by
    show Perlin.new.inner_process_2d_field_parallel_2 [((1:ℚ)/2, (1:ℚ)/2)] = _
    unfold Perlin.inner_process_2d_field_parallel_2
    rw [perlin_2d_parallel_on_split_coordinates]
    rfl
  rw [hL]
  have e1 : Perlin.new.perlin_2d ((1:ℚ)/2, (1:ℚ)/2) =
      -6369051672525773 / 18014398509481984 := by
    norm_num [Perlin.new, Perlin.perlin_2d, PermutationTable.new, PermutationTable.get2,
      PermutationTable.fold, gradient_dot_v, s_curve5, ratTrunc, clampQ, SQRT2_F64]
    simp
    norm_num
  have e2 : Perlin.new.get2 ((1:ℚ)/2, (1:ℚ)/2) =
      -31604938271604937 / 320000000000000000 := by
    show Perlin.new.perlin_2d_surflet ((1:ℚ)/2, (1:ℚ)/2) = _
    norm_num [Perlin.new, Perlin.perlin_2d_surflet, PermutationTable.new,
      PermutationTable.get2, PermutationTable.fold, surflet2, gradient_get2, dot2,
      ratTrunc, clampQ, PERLIN_SCALE_FACTOR_2D]
    simp
    norm_num
  intro h
  have h2 := List.head_eq_of_cons_eq h
  rw [e1, e2] at h2
  norm_num at h2

/-- **C2 (failing input).** At the point (1/2, 0, 1/4) the fractional offsets
are (1/2, 0, 1/4), but the distance vector `perlin_3d` passes to the f000
(near-corner) surflet is (1/2, 0, 1/2): its z component is the x fractional
offset 1/2, not the z fractional offset 1/4 (perlin.rs line 315). -/
theorem perlin_3d_f000_distance_reuses_x_offset :
    perlin_3d_near_distance ((1:ℚ)/2, 0, 1/4) = (1/2, 0, 1/4) ∧
    perlin_3d_f000_distance ((1:ℚ)/2, 0, 1/4) = (1/2, 0, 1/2) ∧
    ((1:ℚ)/2) ≠ 1/4 := by
  refine ⟨?_, ?_, by norm_num⟩ <;>
    norm_num [perlin_3d_near_distance, perlin_3d_f000_distance, Prod.ext_iff]

/-- **C5.** Every Perlin point evaluation — 2D surflet form (= `get`), 2D lerp
form, 3D, and 4D — ends in `clamp(…, -1.0, 1.0)`, so the result lies in
[-1, 1] for every input point and every permutation table. -/
theorem perlin_point_evaluation_in_unit_range (p : Perlin) (q2 : ℚ × ℚ)
    (q3 : ℚ × ℚ × ℚ) (q4 : ℚ × ℚ × ℚ × ℚ) :
    (-1 ≤ p.perlin_2d_surflet q2 ∧ p.perlin_2d_surflet q2 ≤ 1) ∧
    (-1 ≤ p.perlin_2d q2 ∧ p.perlin_2d q2 ≤ 1) ∧
    (-1 ≤ p.perlin_3d q3 ∧ p.perlin_3d q3 ≤ 1) ∧
    (-1 ≤ p.perlin_4d q4 ∧ p.perlin_4d q4 ≤ 1) := by
  refine ⟨?_, ?_, ?_, ?_⟩ <;> exact clampQ_mem _ _ _ (by norm_num)

/-- `OpenSimplex::STRETCH_CONSTANT_2D` (open_simplex.rs line 22), the decimal
literal `-0.211_324_865_405_187` as written. -/
def STRETCH_CONSTANT_2D : ℚ := -211324865405187 / 1000000000000000

/-- `OpenSimplex::SQUISH_CONSTANT_2D` (open_simplex.rs line 23), the decimal
literal `0.366_025_403_784_439` as written. -/
def SQUISH_CONSTANT_2D : ℚ := 366025403784439 / 1000000000000000

/-- `OpenSimplex::NORM_CONSTANT_2D` (open_simplex.rs line 29). -/
def NORM_CONSTANT_2D : ℚ := 1 / 14

/-- open_simplex.rs lines 13-17: the OpenSimplex kernel owns its seed and
permutation table. -/
structure OpenSimplex where
  seed : ℕ
  perm_table : PermutationTable

/-- `OpenSimplex::new` (open_simplex.rs lines 33-38) with `DEFAULT_SEED = 0`. -/
def OpenSimplex.new : OpenSimplex := ⟨0, PermutationTable.new 0⟩

/-- `math::to_isize2`: componentwise `as isize` cast. -/
def toIsize2 (v : ℚ × ℚ) : ℤ × ℤ := (ratTrunc v.1, ratTrunc v.2)

/-- The inner `gradient` of the 2D OpenSimplex `get` (open_simplex.rs lines
72-81): radius-2 attenuation, fourth power, dot with the hashed gradient. -/
def openSimplexGradient2 (perm_table : PermutationTable) (vertex : ℚ × ℚ)
    (position : ℚ × ℚ) : ℚ :=
  let attn := 2 - dot2 position position
  if attn > 0 then
    attn ^ 4 * dot2 position (gradient_get2 (perm_table.get2 (toIsize2 vertex)))
  else 0

/-- The region branch of the 2D OpenSimplex `get` (open_simplex.rs lines
144-205): selects the in-cell contribution ((0,0) for region A, (1,1) for
region B) and the extra vertex from the neighboring simplex, returning
`((vertex, dpos), (ext_vertex, ext_dpos))`. -/
def openSimplex2_region_vertices (stretched_floor rel_coords : ℚ × ℚ)
    (region_sum : ℚ) (pos0 : ℚ × ℚ) (t2 t3 t4 : ℚ) :
    ((ℚ × ℚ) × (ℚ × ℚ)) × ((ℚ × ℚ) × (ℚ × ℚ)) :=
  if region_sum < 1 then
    let vertex := (stretched_floor.1 + 0, stretched_floor.2 + 0)
    let dpos := (pos0.1 - 0, pos0.2 - 0)
    let center_dist := 1 - region_sum
    if center_dist > rel_coords.1 ∨ center_dist > rel_coords.2 then
      if rel_coords.1 > rel_coords.2 then
        ((vertex, dpos),
          ((stretched_floor.1 + 1, stretched_floor.2 + -1),
           (pos0.1 - 1, pos0.2 - -1)))
      else
        ((vertex, dpos),
          ((stretched_floor.1 + -1, stretched_floor.2 + 1),
           (pos0.1 - -1, pos0.2 - 1)))
    else
      ((vertex, dpos),
        ((stretched_floor.1 + 1, stretched_floor.2 + 1),
         (pos0.1 - t2, pos0.2 - t2)))
  else
    let vertex := (stretched_floor.1 + 1, stretched_floor.2 + 1)
    let dpos := (pos0.1 - t2, pos0.2 - t2)
    let center_dist := 2 - region_sum
    if center_dist < rel_coords.1 ∨ center_dist < rel_coords.2 then
      if rel_coords.1 > rel_coords.2 then
        ((vertex, dpos),
          ((stretched_floor.1 + 2, stretched_floor.2 + 0),
           (pos0.1 - t4, pos0.2 - t3)))
      else
        ((vertex, dpos),
          ((stretched_floor.1 + 0, stretched_floor.2 + 2),
           (pos0.1 - t3, pos0.2 - t4)))
    else
      ((vertex, dpos),
        ((stretched_floor.1 + 0, stretched_floor.2 + 0),
         (pos0.1 - 0, pos0.2 - 0)))

/-- `NoiseFn<[f64; 2]> for OpenSimplex` (open_simplex.rs lines 70-214):
stretch, floor, squish, region classification, four gradient contributions,
final multiplication by the norm constant (and no clamp). -/
def OpenSimplex.get2 (os : OpenSimplex) (point : ℚ × ℚ) : ℚ :=
  let stretch_offset := (point.1 + point.2) * STRETCH_CONSTANT_2D
  let stretched := (point.1 + stretch_offset, point.2 + stretch_offset)
  let stretched_floor := ((Int.floor stretched.1 : ℚ), (Int.floor stretched.2 : ℚ))
  let squish_offset := (stretched_floor.1 + stretched_floor.2) * SQUISH_CONSTANT_2D
  let skewed_floor := (stretched_floor.1 + squish_offset, stretched_floor.2 + squish_offset)
  let rel_coords := (stretched.1 - stretched_floor.1, stretched.2 - stretched_floor.2)
  let region_sum := rel_coords.1 + rel_coords.2
  let pos0 := (point.1 - skewed_floor.1, point.2 - skewed_floor.2)
  let t0 := SQUISH_CONSTANT_2D
  let t1 := SQUISH_CONSTANT_2D + 1
  let t2 := SQUISH_CONSTANT_2D + t1
  let t3 := SQUISH_CONSTANT_2D + SQUISH_CONSTANT_2D
  let t4 := 1 + t2
  let v10 := (stretched_floor.1 + 1, stretched_floor.2 + 0)
  let d10 := (pos0.1 - t1, pos0.2 - t0)
  let v01 := (stretched_floor.1 + 0, stretched_floor.2 + 1)
  let d01 := (pos0.1 - t0, pos0.2 - t1)
  let vd := openSimplex2_region_vertices stretched_floor rel_coords region_sum pos0 t2 t3 t4
  let value := 0 + openSimplexGradient2 os.perm_table v10 d10
  let value := value + openSimplexGradient2 os.perm_table v01 d01
  let value := value + openSimplexGradient2 os.perm_table vd.1.1 vd.1.2
  let value := value + openSimplexGradient2 os.perm_table vd.2.1 vd.2.2
  value * NORM_CONSTANT_2D

/-- The list of contributing (vertex, dpos) pairs of the 2D OpenSimplex
evaluation: the (1,0) and (0,1) simplex vertices, the in-cell vertex and the
extra vertex, with the same geometry as `OpenSimplex.get2`. -/
def openSimplex2_contributions (point : ℚ × ℚ) : List ((ℚ × ℚ) × (ℚ × ℚ)) :=
  let stretch_offset := (point.1 + point.2) * STRETCH_CONSTANT_2D
  let stretched := (point.1 + stretch_offset, point.2 + stretch_offset)
  let stretched_floor := ((Int.floor stretched.1 : ℚ), (Int.floor stretched.2 : ℚ))
  let squish_offset := (stretched_floor.1 + stretched_floor.2) * SQUISH_CONSTANT_2D
  let skewed_floor := (stretched_floor.1 + squish_offset, stretched_floor.2 + squish_offset)
  let rel_coords := (stretched.1 - stretched_floor.1, stretched.2 - stretched_floor.2)
  let region_sum := rel_coords.1 + rel_coords.2
  let pos0 := (point.1 - skewed_floor.1, point.2 - skewed_floor.2)
  let t0 := SQUISH_CONSTANT_2D
  let t1 := SQUISH_CONSTANT_2D + 1
  let t2 := SQUISH_CONSTANT_2D + t1
  let t3 := SQUISH_CONSTANT_2D + SQUISH_CONSTANT_2D
  let t4 := 1 + t2
  let v10 := (stretched_floor.1 + 1, stretched_floor.2 + 0)
  let d10 := (pos0.1 - t1, pos0.2 - t0)
  let v01 := (stretched_floor.1 + 0, stretched_floor.2 + 1)
  let d01 := (pos0.1 - t0, pos0.2 - t1)
  let vd := openSimplex2_region_vertices stretched_floor rel_coords region_sum pos0 t2 t3 t4
  [(v10, d10), (v01, d01), vd.1, vd.2]

/-- The spec's formula for 2D OpenSimplex (spec section 4.3 steps 4-5): sum
over the contributing vertices of `attenuation^4 * dot(offset, gradient)`
with `attenuation = max(0, 2 - dot(offset, offset))` (non-positive
attenuation contributes 0), multiplied by the 2D normalization constant; no
clamp is applied. -/
def OpenSimplex.get2_by_spec (os : OpenSimplex) (point : ℚ × ℚ) : ℚ :=
  ((openSimplex2_contributions point).map fun vd =>
      (max 0 (2 - dot2 vd.2 vd.2)) ^ 4 *
        dot2 vd.2 (gradient_get2 (os.perm_table.get2 (toIsize2 vd.1)))).sum *
    NORM_CONSTANT_2D

lemma openSimplexGradient2_eq_max_form (pt : PermutationTable)
    (vertex position : ℚ × ℚ) :
    openSimplexGradient2 pt vertex position =
      (max 0 (2 - dot2 position position)) ^ 4 *
        dot2 position (gradient_get2 (pt.get2 (toIsize2 vertex))) := by
  show (if 2 - dot2 position position > 0 then _ else _) = _
  split_ifs with h
  · rw [max_eq_right h.le]
  · rw [max_eq_left (le_of_not_lt h)]
    ring

/-- **C6.** For every 2D input point and every permutation table, the 2D
OpenSimplex evaluation equals the sum, over its contributing lattice
vertices, of `attenuation^4 * dot(offset, gradient)` where `attenuation =
max(0, 2 - dot(offset, offset))` (a vertex with non-positive attenuation
contributes 0), multiplied by the 2D normalization constant `1/14`, with no
final clamp to [-1, 1]. -/
theorem open_simplex_2d_matches_spec_formula (os : OpenSimplex) (point : ℚ × ℚ) :
    os.get2 point = os.get2_by_spec point := by
  unfold OpenSimplex.get2 OpenSimplex.get2_by_spec openSimplex2_contributions
  simp only [List.map_cons, List.map_nil, List.sum_cons, List.sum_nil,
    openSimplexGradient2_eq_max_form]
  ring

/-- select.rs lines 9-27: `Select` holds its two sources and the control
(field-processing functions), the selection bounds and the edge falloff. -/
structure Select where
  source1 : NoiseField2D → NoiseField2D
  source2 : NoiseField2D → NoiseField2D
  control : NoiseField2D → NoiseField2D
  bounds : ℚ × ℚ
  falloff : ℚ

/-- `NoiseFieldFn<NoiseField2D> for Select::process_field` (select.rs lines
96-144): processes the three sources on the same field, then maps over the
zipped value buffers; in the zipped pair, `.1` is the control value, `.2.1`
("lower") the source1 value and `.2.2` ("upper") the source2 value. -/
def Select.process_field (s : Select) (field : NoiseField2D) : NoiseField2D :=
  let control := s.control field
  let source1 := s.source1 field
  let source2 := s.source2 field
  let lower_bound := s.bounds.1
  let upper_bound := s.bounds.2
  { field with values :=
      ((control.values.zip (source1.values.zip source2.values)).map fun cv =>
        if 0 < s.falloff then
          if cv.1 < lower_bound - s.falloff then cv.2.1
          else if cv.1 < lower_bound + s.falloff then
            linear cv.2.1 cv.2.2 (s_curve3 ((cv.1 - (lower_bound - s.falloff)) /
              ((lower_bound + s.falloff) - (lower_bound - s.falloff))))
          else if cv.1 < upper_bound - s.falloff then cv.2.2
          else if cv.1 < upper_bound + s.falloff then
            linear cv.2.2 cv.2.1 (s_curve3 ((cv.1 - (upper_bound - s.falloff)) /
              ((upper_bound + s.falloff) - (upper_bound - s.falloff))))
          else cv.2.1
        else if lower_bound < cv.1 ∧ cv.1 < upper_bound then cv.2.2
        else cv.2.1) }

lemma map_zip_zip_getD (g : ℚ × ℚ × ℚ → ℚ) (a : List ℚ) :
    ∀ (b c : List ℚ) (i : ℕ), i < a.length → i < b.length → i < c.length →
      ((a.zip (b.zip c)).map g).getD i 0 =
        g (a.getD i 0, b.getD i 0, c.getD i 0) := by
  induction a with
  | nil => intro b c i ha _ _; simp at ha
  | cons x a ih =>
    intro b c i ha hb hc
    cases b with
    | nil => simp at hb
    | cons y b =>
      cases c with
      | nil => simp at hc
      | cons z c =>
        cases i with
        | zero => rfl
        | succ i =>
          simp only [List.zip_cons_cons, List.map_cons, List.getD_cons_succ]
          simp only [List.length_cons, Nat.succ_lt_succ_iff] at ha hb hc
          exact ih b c i ha hb hc

/-- **C8.** With `falloff = 0`, `Select::process_field` keeps the grid shape
and coordinates and, at each index, outputs source2's value exactly when the
control value lies strictly between the bounds, and source1's value
otherwise. -/
theorem select_falloff_zero_selects_by_bounds (s : Select) (field : NoiseField2D)
    (hf : s.falloff = 0) (i : ℕ)
    (hc : i < ((s.control field).values).length)
    (h1 : i < ((s.source1 field).values).length)
    (h2 : i < ((s.source2 field).values).length) :
    (s.process_field field).coordinates = field.coordinates ∧
    (s.process_field field).width = field.width ∧
    (s.process_field field).height = field.height ∧
    (s.process_field field).values.getD i 0 =
      (if s.bounds.1 < ((s.control field).values).getD i 0 ∧
          ((s.control field).values).getD i 0 < s.bounds.2 then
        ((s.source2 field).values).getD i 0
      else ((s.source1 field).values).getD i 0) := by
  refine ⟨rfl, rfl, rfl, ?_⟩
  show (((s.control field).values.zip
      ((s.source1 field).values.zip (s.source2 field).values)).map _).getD i 0 = _
  rw [map_zip_zip_getD _ _ _ _ _ hc h1 h2]
  rw [hf]
  norm_num

/-- The `Constant` combinator's `process_field` (constant.rs lines 28-37):
clones the field and sets every value slot to the constant. -/
def constant_process_field (value : ℚ) (field : NoiseField2D) : NoiseField2D :=
  { field with values := field.values.map fun _ => value }

/-- A 1×1 field used to instantiate the Select scenario. -/
def unit_field : NoiseField2D := ⟨1, 1, [(0, 0)], [0]⟩

/-- The spec scenario `Select(Constant(10), Constant(20), control,
bounds=(0,1), falloff=0)` with control all 0.5. -/
def select_example_inside : Select :=
  ⟨constant_process_field 10, constant_process_field 20,
   constant_process_field (1/2), (0, 1), 0⟩

/-- The same scenario with control all 2.0. -/
def select_example_outside : Select :=
  ⟨constant_process_field 10, constant_process_field 20,
   constant_process_field 2, (0, 1), 0⟩

/-- Witness for C8: with bounds (0,1) and falloff 0, a control value of 0.5
yields source2's 20.0 and a control value of 2.0 yields source1's 10.0;
instantiates the theorem at the spec's concrete scenario. -/
theorem select_falloff_zero_selects_by_bounds_witness :
    (select_example_inside.process_field unit_field).values.getD 0 0 = 20 ∧
    (select_example_outside.process_field unit_field).values.getD 0 0 = 10 := by
  constructor
  · rw [(select_falloff_zero_selects_by_bounds select_example_inside unit_field rfl 0
      (by decide) (by decide) (by decide)).2.2.2]
    norm_num [select_example_inside, constant_process_field, unit_field]
  · rw [(select_falloff_zero_selects_by_bounds select_example_outside unit_field rfl 0
      (by decide) (by decide) (by decide)).2.2.2]
    norm_num [select_example_outside, constant_process_field, unit_field]

/-- Modelled from the spec: fractals/mod.rs is absent from src/.
`build_sources(seed, octaves)` builds the stack of independently-seeded
Perlin sources, one per octave. -/
def build_sources (seed octaves : ℕ) : List Perlin :=
  (List.range octaves).map fun i =>
    { seed := seed + i, perm_table := PermutationTable.new (seed + i) }

/-- `RidgedMulti::MAX_OCTAVES` (ridgedmulti.rs line 71). -/
def MAX_OCTAVES : ℕ := 32

/-- ridgedmulti.rs lines 24-63: the ridged-multifractal kernel. -/
structure RidgedMulti where
  octaves : ℕ
  frequency : ℚ
  lacunarity : ℚ
  gain : ℚ
  seed : ℕ
  sources : List Perlin
  spectral_weights : List ℚ

/-- `RidgedMulti::calc_spectral_weights` (ridgedmulti.rs lines 93-101): with
`h = 1`, octave `i` receives weight `(frequency * lacunarity^i)^(-1)`; the
source's in-place loop writes exactly indices `0..octaves` of a vector of
length `octaves`, embedded as the full list. -/
def RidgedMulti.calc_spectral_weights (r : RidgedMulti) : RidgedMulti :=
  { r with spectral_weights :=
      (List.range r.octaves).map fun i => (r.frequency * r.lacunarity ^ i)⁻¹ }

/-- `RidgedMulti::new` (ridgedmulti.rs lines 73-87) with the default octave
count 6, frequency 1.0, lacunarity 2.17, gain 2.0 and seed 0. -/
def RidgedMulti.new : RidgedMulti :=
  RidgedMulti.calc_spectral_weights
    { octaves := 6, frequency := 1, lacunarity := 217/100, gain := 2, seed := 0,
      sources := build_sources 0 6, spectral_weights := List.replicate 6 0 }

/-- `MultiFractal::set_octaves for RidgedMulti` (ridgedmulti.rs lines
111-127): identical octave count returns self unchanged; otherwise the count
is clamped into [1, MAX_OCTAVES], the sources are rebuilt and the spectral
weights reallocated and recomputed. -/
def RidgedMulti.set_octaves (r : RidgedMulti) (octaves : ℕ) : RidgedMulti :=
  if r.octaves = octaves then r
  else
    let octaves := clampNat octaves 1 MAX_OCTAVES
    RidgedMulti.calc_spectral_weights
      { r with
        octaves := octaves
        sources := build_sources r.seed octaves
        spectral_weights := List.replicate octaves 0 }

/-- **C10.** `set_octaves` is total: when the requested count equals the
current one the kernel is returned unchanged, and otherwise the count is
clamped into [1, 32] and both the sources vector and the spectral-weights
vector of the result have length equal to the clamped count. -/
theorem set_octaves_clamps_and_rebuilds (r : RidgedMulti) (n : ℕ) :
    (r.octaves = n → r.set_octaves n = r) ∧
    (r.octaves ≠ n →
      (r.set_octaves n).octaves = clampNat n 1 32 ∧
      (r.set_octaves n).sources.length = clampNat n 1 32 ∧
      (r.set_octaves n).spectral_weights.length = clampNat n 1 32) := by
  constructor
  · intro hn
    unfold RidgedMulti.set_octaves
    rw [if_pos hn]
  · intro hn
    unfold RidgedMulti.set_octaves
    rw [if_neg hn]
    refine ⟨rfl, ?_, ?_⟩
    · show (build_sources r.seed (clampNat n 1 MAX_OCTAVES)).length = _
      simp [build_sources, MAX_OCTAVES]
    · show ((List.range (clampNat n 1 MAX_OCTAVES)).map _).length = _
      simp [MAX_OCTAVES]

/-- Witness for C10: requesting 40 octaves on the default kernel (6 octaves)
clamps to 32 and rebuilds both vectors at length 32, while requesting the
current count 6 returns the kernel unchanged. -/
theorem set_octaves_clamps_and_rebuilds_witness :
    (RidgedMulti.new.set_octaves 40).sources.length = 32 ∧
    (RidgedMulti.new.set_octaves 40).spectral_weights.length = 32 ∧
    RidgedMulti.new.set_octaves 6 = RidgedMulti.new := by
  have h40 := (set_octaves_clamps_and_rebuilds RidgedMulti.new 40).2 (by decide)
  have hc : clampNat 40 1 32 = 32 := by decide
  refine ⟨?_, ?_, ?_⟩
  · rw [h40.2.1, hc]
  · rw [h40.2.2, hc]
  · exact (set_octaves_clamps_and_rebuilds RidgedMulti.new 6).1 rfl
